import Mathlib

/-!
Verification of the CYD weather-station sketch
(`Esp32_CYD_TFT_eSPI_OpenWeather_LittleFS_v02.ino`).

The sketch's decision logic is shallowly embedded: C++ `String`s become
`List Char`/`String`, machine integers become `Nat`/`Int` (no arithmetic
here ever approaches a wrap-around boundary), and the ArduinoJson access
idiom `doc[key]` — which yields a default value (`0`, `"null"`) when the
key is absent or of the wrong type — becomes `Option.getD`.
-/

namespace WeatherStation

/-! ## Text split helper (`splitIndex`, sketch lines 657-664) -/

/-- The space character, written via its code point. -/
def spaceChar : Char := Char.ofNat 32

/-- Index of the first space in `l` (`String.indexOf(' ', 0)` of the
Arduino `String` class, restricted to the space character). -/
def findSpace : List Char → Option Nat
  | [] => none
  | c :: cs => if c = spaceChar then some 0 else (findSpace cs).map (· + 1)

/-- Index of the first space at index `start` or later
(`String.indexOf(' ', start)`); `none` when there is none. -/
def indexOfFrom (s : List Char) (start : Nat) : Option Nat :=
  (findSpace (s.drop start)).map (· + start)

/-- Index of the last space in `s`; `none` when there is none. -/
def lastSpaceIdx : List Char → Option Nat
  | [] => none
  | c :: cs =>
    match lastSpaceIdx cs with
    | some i => some (i + 1)
    | none => if c = spaceChar then some 0 else none

/-- The `while` loop of `splitIndex`: starting from `index`, jump to just
past the next space while a space exists at or after `index` and
`index <= text.length() / 2`.  The loop terminates because `index`
strictly increases; `fuel = s.length + 1` steps always suffice. -/
def splitLoopFuel : Nat → List Char → Nat → Nat
  | 0, _, index => index
  | fuel + 1, s, index =>
    match indexOfFrom s index with
    | none => index
    | some i => if index ≤ s.length / 2 then splitLoopFuel fuel s (i + 1) else index

/-- The loop of `splitIndex` run from `index = 0` with enough fuel. -/
def splitLoop (s : List Char) : Nat :=
  splitLoopFuel (s.length + 1) s 0

/-- The function `splitIndex` (sketch lines 657-664): run the scan loop, then
`if (index) index--`. -/
def splitIndex (s : List Char) : Nat :=
  let index := splitLoop s
  if index = 0 then 0 else index - 1

/-- Reference description of what the scan computes (for comparison with
`splitIndex`): the first space at or after the midpoint `length / 2` when
the string contains one, otherwise the last space, and `0` for a string
with no space at all. -/
def splitIndexSpec (s : List Char) : Nat :=
  if spaceChar ∈ s then
    match indexOfFrom s (s.length / 2) with
    | some q => q
    | none => (lastSpaceIdx s).getD 0
  else 0

/-- The worked example from the specification. -/
def forecastPhrase : List Char := "Partly cloudy with a chance of rain".toList

/-! ## Weather code classifiers (`getMeteoconIcon`, sketch lines 609-644,
and the condition-word table of `drawCurrentWeather`, lines 421-427) -/

/-- The ordered range table of `getMeteoconIcon` after the day/night
adjustment: the chain of `if` statements on lines 619-643, first match
wins, falling through to `"unknown"`. -/
def meteoconTable (id : Nat) : String :=
  if id = 0 then "clear-day"
  else if id = 1000 then "clear-night"
  else if 1 ≤ id ∧ id ≤ 3 then "partly-cloudy-day"
  else if 1001 ≤ id ∧ id ≤ 1003 then "partly-cloudy-night"
  else if id = 45 ∨ id = 48 then "fog"
  else if 51 ≤ id ∧ id ≤ 55 then "drizzle"
  else if 61 ≤ id ∧ id ≤ 67 then "rain"
  else if 80 ≤ id ∧ id ≤ 82 then "rain"
  else if 71 ≤ id ∧ id ≤ 77 then "snow"
  else if id = 85 ∨ id = 86 then "snow"
  else if 95 ≤ id ∧ id ≤ 99 then "thunderstorm"
  else "unknown"

/-- The disjunction of every range tested by `meteoconTable`. -/
def inAnyIconRange (id : Nat) : Prop :=
  id = 0 ∨ id = 1000 ∨ (1 ≤ id ∧ id ≤ 3) ∨ (1001 ≤ id ∧ id ≤ 1003) ∨
  (id = 45 ∨ id = 48) ∨ (51 ≤ id ∧ id ≤ 55) ∨ (61 ≤ id ∧ id ≤ 67) ∨
  (80 ≤ id ∧ id ≤ 82) ∨ (71 ≤ id ∧ id ≤ 77) ∨ (id = 85 ∨ id = 86) ∨
  (95 ≤ id ∧ id ≤ 99)

instance (id : Nat) : Decidable (inAnyIconRange id) := by
  unfold inAnyIconRange; infer_instance

/-- The day/night adjustment on sketch lines 613-615:
`if (today && id <= 3 && (now() < sunrise || now() > sunset)) id += 1000`.
The current time `now()` is a global in the sketch and is passed
explicitly here; `id` is a `uint16_t` and is at most 3 when the offset is
added, so no wrap-around can occur. -/
def nightAdjustedId (id : Nat) (today : Bool) (timeNow sunrise sunset : Nat) : Nat :=
  if today = true ∧ id ≤ 3 ∧ (timeNow < sunrise ∨ timeNow > sunset) then id + 1000
  else id

/-- The function `getMeteoconIcon` (sketch lines 609-644). -/
def getMeteoconIcon (id : Nat) (today : Bool) (timeNow sunrise sunset : Nat) : String :=
  meteoconTable (nightAdjustedId id today timeNow sunrise sunset)

/-- The condition-word table of `drawCurrentWeather` (sketch lines
421-427): `legend` starts as `"Clouds"` and is narrowed by the chain of
comparisons on the signed `int code`. -/
def legendWord (code : Int) : String :=
  if code = 0 then "Clear"
  else if code ≤ 3 then "Cloudy"
  else if code ≤ 67 then "Rain"
  else if code ≤ 99 then "Storm"
  else "Clouds"

/-! ## Wind-direction sector (`drawCurrentWeather`, sketch lines 463-476) -/

/-- The cast `(int)(b + 22.5)`: the `double` sum truncated toward zero.  For an
integer bearing `b` this is `b + 22` when `b + 22.5 >= 0` and `b + 23`
otherwise; the `double` holds every value in `int` range exactly. -/
def truncWindBase (b : Int) : Int :=
  if 0 ≤ b + 22 then b + 22 else b + 23

/-- Line 465, `int windAngle = (int)(forecast->wind_deg[0] + 22.5) / 45;` — C++
`int` division truncates toward zero (`Int.tdiv`). -/
def windAngleRaw (b : Int) : Int :=
  Int.tdiv (truncWindBase b) 45

/-- Line 466, `if (windAngle > 7 || windAngle < 0) windAngle = 0;` -/
def windAngle (b : Int) : Int :=
  if windAngleRaw b > 7 ∨ windAngleRaw b < 0 then 0 else windAngleRaw b

/-- Line 467, `String windDirs[] = { "N", "NE", "E", "SE", "S", "SW", "W", "NW" };` -/
def windDirs : List String := ["N", "NE", "E", "SE", "S", "SW", "W", "NW"]

/-- The lookup `windDirs[windAngle]` — the array access made total with a default
that is provably never used. -/
def windDirName (b : Int) : String :=
  windDirs.getD (windAngle b).toNat ""

/-- The compass-sector formula stated by the specification,
`floor((bearing + 22.5) / 45) mod 8`, written over the integers as
`floor((2 * bearing + 45) / 90) mod 8` (`/` and `%` on `Int` round down). -/
def specSector (b : Int) : Int :=
  ((2 * b + 45) / 90) % 8

/-! ## Forecast data model and the populate step (`updateData`,
sketch lines 270-366) -/

/-- One fetched Open-Meteo JSON payload.  Each field of the document that
`updateData` reads is `none` when absent or of the wrong type; the daily
arrays are indexed by forecast day. -/
structure Payload where
  current_temperature_2m : Option Int
  current_relative_humidity_2m : Option Int
  current_cloud_cover : Option Int
  current_surface_pressure : Option Int
  current_wind_speed_10m : Option Int
  current_wind_direction_10m : Option Int
  current_weather_code : Option Nat
  daily_weather_code : Nat → Option Nat
  daily_temperature_2m_max : Nat → Option Int
  daily_temperature_2m_min : Nat → Option Int
  daily_sunrise : Nat → Option Nat
  daily_sunset : Nat → Option Nat

/-- The slice of the `OW_forecast` object that `updateData` writes and
the draw functions read.  Temperatures, pressure and wind speed are
`float` in the sketch; only exactly representable values and order
comparisons occur, so `Int` stands in for them. -/
structure OWforecast where
  city_name : String
  temp0 : Int
  humidity0 : Int
  clouds0 : Int
  pressure0 : Int
  windSpeed0 : Int
  windDeg0 : Int
  id0 : Nat
  sunrise : Nat
  sunset : Nat
  temp_max : Nat → Int
  temp_min : Nat → Int
  id : Nat → Nat
  dt : Nat → Nat

/-- Line 277, `forecast = new OW_forecast;` — the freshly allocated object, whose
numeric storage is modelled as zero-initialised (the struct has no
constructor; nothing of the previous cycle's object, deleted at the end
of the previous `updateData`, survives in it). -/
def freshForecast : OWforecast :=
  { city_name := ""
    temp0 := 0, humidity0 := 0, clouds0 := 0, pressure0 := 0
    windSpeed0 := 0, windDeg0 := 0, id0 := 0, sunrise := 0, sunset := 0
    temp_max := fun _ => 0, temp_min := fun _ => 0
    id := fun _ => 0, dt := fun _ => 0 }

/-- The strided store of the loop
`for (int i = 1; i <= 4; i++) { int idx = i * 8; arr[idx] = daily[i]; }`:
slots 8, 16, 24, 32 receive days 1-4, every other slot is untouched.
A missing JSON entry yields the ArduinoJson default `dflt`. -/
def stridedWrite {α : Type} (old : Nat → α) (vals : Nat → Option α) (dflt : α) :
    Nat → α :=
  fun j =>
    if j = 8 then (vals 1).getD dflt
    else if j = 16 then (vals 2).getD dflt
    else if j = 24 then (vals 3).getD dflt
    else if j = 32 then (vals 4).getD dflt
    else old j

/-- The field assignments of `updateData` (sketch lines 298-316), applied
to a forecast object.  `doc[...]` on an absent or mistyped field is the
ArduinoJson default value, i.e. `Option.getD` with default `0`. -/
def populateForecast (f : OWforecast) (p : Payload) : OWforecast :=
  { f with
    temp0 := p.current_temperature_2m.getD 0
    humidity0 := p.current_relative_humidity_2m.getD 0
    clouds0 := p.current_cloud_cover.getD 0
    pressure0 := p.current_surface_pressure.getD 0
    windSpeed0 := p.current_wind_speed_10m.getD 0
    windDeg0 := p.current_wind_direction_10m.getD 0
    id0 := p.current_weather_code.getD 0
    sunrise := (p.daily_sunrise 0).getD 0
    sunset := (p.daily_sunset 0).getD 0
    temp_max := stridedWrite f.temp_max p.daily_temperature_2m_max 0
    temp_min := stridedWrite f.temp_min p.daily_temperature_2m_min 0
    id := stridedWrite f.id p.daily_weather_code 0
    dt := stridedWrite f.dt p.daily_sunrise 0 }

/-- The publish/draw decision of `updateData` (sketch lines 290-362):
`parsed` is set exactly when `httpCode == 200`; when `parsed`, the screen
is redrawn from the freshly populated object, otherwise only
`"Failed to get weather"` is logged and the screen keeps its previous
content.  The result is the displayed snapshot and whether a redraw
happened. -/
def updateData (prev : Option OWforecast) (city : String) (httpCode : Int)
    (p : Payload) : Option OWforecast × Bool :=
  if httpCode = 200 then
    (some (populateForecast { freshForecast with city_name := city } p), true)
  else (prev, false)

/-! ## Pressure trend (`updateData` lines 301-303 and
`drawCurrentWeather` lines 451-460) -/

/-- Line 302, `if (forecast->pressure[0] > 0) lastPressure = forecast->pressure[0];`
— the global `lastPressure` is updated from the current forecast
object's pressure slot. -/
def savePressure (lastP forecastP : Int) : Int :=
  if forecastP > 0 then forecastP else lastP

/-- The pressure slot of the forecast object at the moment line 302 runs:
the object was allocated a few lines earlier by `new OW_forecast` and no
pressure has been stored into it yet, so the slot holds the
zero-initialised storage of `freshForecast`. -/
def newForecastPressure : Int := freshForecast.pressure0

/-- The trend-arrow decision of `drawCurrentWeather` (lines 452-459):
`some true` is the up arrow, `some false` the down arrow, `none` no
arrow. -/
def trendArrow (lastP p : Int) : Option Bool :=
  if lastP > 0 ∧ lastP ≠ p then some (decide (p > lastP)) else none

/-- One refresh cycle as far as the pressure trend is concerned: save
`lastPressure` from the fresh object's (still empty) pressure slot, then
parse `newPressure` into the object and draw.  Returns the new
`lastPressure` and the arrow drawn this cycle. -/
def pressureRefreshCycle (lastP newPressure : Int) : Int × Option Bool :=
  let saved := savePressure lastP newForecastPressure
  (saved, trendArrow saved newPressure)

/-- The value of `lastPressure` after a sequence of successfully parsed cycles,
starting from the boot value `float lastPressure = 0`. -/
def runPressureCycles (ps : List Int) : Int :=
  ps.foldl (fun lp p => (pressureRefreshCycle lp p).1) 0

/-! ## Location resolver (`getLocationName`, sketch lines 845-868) -/

/-- One reverse-geocode fetch outcome.  `httpCode` is the value returned
by `http.GET()` (negative on timeout or transport error).  The three
string fields hold `doc[key].as<String>()`, which is the literal
`"null"` when the key is absent or null — ArduinoJson's rendering of a
missing field. -/
structure GeoResponse where
  httpCode : Int
  city : String
  locality : String
  country : String
deriving DecidableEq

/-- Lines 858-859: take `city`, falling back to `locality` when `city`
is `"null"` or empty. -/
def resolvedCity (r : GeoResponse) : String :=
  if r.city = "null" ∨ r.city = "" then r.locality else r.city

/-- The function `getLocationName` as a function of the cached last-valid location and
the fetch outcome; it returns the new cache value (the function's return
value and the `static` variable are always equal). -/
def getLocationName (cache : String) (r : GeoResponse) : String :=
  if r.httpCode = 200 then
    if resolvedCity r ≠ "null" ∧ r.country ≠ "null" ∧ resolvedCity r ≠ "" then
      resolvedCity r ++ ", " ++ r.country
    else cache
  else cache

/-- The cache after a sequence of lookups. -/
def resolveMany (cache : String) (rs : List GeoResponse) : String :=
  rs.foldl getLocationName cache

/-! ## Forecast weekday labels (`drawForecastDetail`, sketch lines
502-515)

The `weekday`/`dayShortStr` pair comes from the bundled TimeLib header
(`NTP_Time.h`), which is part of the repository but not present under
`src/`. -/

/-- Modelled from the spec: the external local-time provider (spec §6)
maps a Unix timestamp to calendar fields; TimeLib's `weekday(t)` is the
day of week of the raw timestamp with Sunday = 1 (day 0 of the Unix
epoch was a Thursday, hence the offset 4). -/
def weekday (t : Nat) : Nat :=
  (t / 86400 + 4) % 7 + 1

/-- Modelled from the spec: TimeLib's `dayShortStr` table,
`{"Err", "Sun", "Mon", "Tue", "Wed", "Thu", "Fri", "Sat"}`. -/
def dayShortStr (d : Nat) : String :=
  match d with
  | 1 => "Sun"
  | 2 => "Mon"
  | 3 => "Tue"
  | 4 => "Wed"
  | 5 => "Thu"
  | 6 => "Fri"
  | 7 => "Sat"
  | _ => "Err"

/-- The call `dayName.toUpperCase()` over the embedded strings. -/
def upStr (s : String) : String :=
  String.mk (s.toList.map Char.toUpper)

/-- The weekday label of one forecast column (sketch line 513):
`dayShortStr(weekday(forecast->dt[dayIndex]))` upper-cased.  The stored
timestamp is used as-is, with no `TIMEZONE.toLocal` conversion. -/
def forecastDayName (f : OWforecast) (dayIndex : Nat) : String :=
  upStr (dayShortStr (weekday (f.dt dayIndex)))

/-- Modelled from the spec: the timezone rule of §6 as a UTC offset in
seconds, and the weekday of the locally converted timestamp (the label
the claim says the panel shows).  `/` and `%` on `Int` round down, the
calendar convention. -/
def localWeekday (offsetSeconds : Int) (t : Nat) : Int :=
  (((t : Int) + offsetSeconds) / 86400 + 4) % 7 + 1

/-- Modelled from the spec: the weekday label derived from the sunrise
timestamp converted to local time. -/
def localForecastDayName (offsetSeconds : Int) (t : Nat) : String :=
  upStr (dayShortStr (localWeekday offsetSeconds t).toNat)

/-- The icon of one forecast column (sketch line 527):
`getMeteoconIcon(forecast->id[dayIndex], false)` — the `today` flag is
always `false` for forecast panels. -/
def forecastPanelIcon (f : OWforecast) (timeNow : Nat) (dayIndex : Nat) : String :=
  getMeteoconIcon (f.id dayIndex) false timeNow f.sunrise f.sunset

/-- A fetched document in which every field `updateData` reads is absent
(or of the wrong type). -/
def emptyPayload : Payload :=
  { current_temperature_2m := none
    current_relative_humidity_2m := none
    current_cloud_cover := none
    current_surface_pressure := none
    current_wind_speed_10m := none
    current_wind_direction_10m := none
    current_weather_code := none
    daily_weather_code := fun _ => none
    daily_temperature_2m_max := fun _ => none
    daily_temperature_2m_min := fun _ => none
    daily_sunrise := fun _ => none
    daily_sunset := fun _ => none }

/-- A fully populated document whose day-1 sunrise is the Unix timestamp
262800 (01:00 UTC on Sunday, 4 Jan 1970 — 20:00 on Saturday in a
UTC-5 zone). -/
def utcMorningPayload : Payload :=
  { current_temperature_2m := some 20
    current_relative_humidity_2m := some 50
    current_cloud_cover := some 10
    current_surface_pressure := some 1013
    current_wind_speed_10m := some 3
    current_wind_direction_10m := some 90
    current_weather_code := some 1
    daily_weather_code := fun _ => some 1
    daily_temperature_2m_max := fun _ => some 25
    daily_temperature_2m_min := fun _ => some 15
    daily_sunrise := fun i => if i = 1 then some 262800 else some 349200
    daily_sunset := fun _ => some 306000 }

/-- A successful reverse-geocode response (HTTP 200) whose `city` is
empty, so the `locality` fallback applies. -/
def geoOkSample : GeoResponse := ⟨200, "", "Quito", "Ecuador"⟩

/-- Two consecutive failed reverse-geocode fetches (HTTP 404 and a
transport error). -/
def geoFailSamples : List GeoResponse := [⟨404, "A", "B", "C"⟩, ⟨-1, "", "", ""⟩]

/-! ## Helper lemmas for the `splitIndex` scan -/

theorem findSpace_none {l : List Char} : findSpace l = none ↔ spaceChar ∉ l := by
  induction l with
  | nil => simp [findSpace]
  | cons c cs ih =>
    by_cases h : c = spaceChar
    · simp [findSpace, h]
    · simp [findSpace, h, Option.map_eq_none', ih, Ne.symm h]

theorem findSpace_some {l : List Char} {i : Nat} (h : findSpace l = some i) :
    l.get? i = some spaceChar ∧ ∀ j, j < i → l.get? j ≠ some spaceChar := by
  induction l generalizing i with
  | nil => simp [findSpace] at h
  | cons c cs ih =>
    by_cases hc : c = spaceChar
    · simp only [findSpace, if_pos hc, Option.some.injEq] at h
      subst h
      refine ⟨by simpa using hc, ?_⟩
      intro j hj
      omega
    · simp only [findSpace, if_neg hc, Option.map_eq_some'] at h
      obtain ⟨k, hk, hik⟩ := h
      obtain ⟨hsp, hmin⟩ := ih hk
      subst hik
      refine ⟨by simpa using hsp, ?_⟩
      intro j hj
      match j with
      | 0 => simpa using hc
      | j + 1 =>
        have : j < k := by omega
        simpa using hmin j this

theorem indexOfFrom_none {s : List Char} {start : Nat} :
    indexOfFrom s start = none ↔
      ∀ j, start ≤ j → s.get? j ≠ some spaceChar := by
  unfold indexOfFrom
  rw [Option.map_eq_none', findSpace_none]
  constructor
  · intro hno j hj hsp
    refine hno ?_
    have : (s.drop start).get? (j - start) = some spaceChar := by
      rw [List.get?_drop]
      have : start + (j - start) = j := by omega
      rw [this]
      exact hsp
    exact List.get?_mem this
  · intro hall hmem
    obtain ⟨n, hn⟩ := List.mem_iff_get?.mp hmem
    rw [List.get?_drop] at hn
    exact hall (start + n) (by omega) hn

theorem indexOfFrom_some {s : List Char} {start i : Nat}
    (h : indexOfFrom s start = some i) :
    start ≤ i ∧ s.get? i = some spaceChar ∧
      ∀ j, start ≤ j → j < i → s.get? j ≠ some spaceChar := by
  unfold indexOfFrom at h
  rw [Option.map_eq_some'] at h
  obtain ⟨k, hk, hik⟩ := h
  obtain ⟨hsp, hmin⟩ := findSpace_some hk
  rw [List.get?_drop] at hsp
  subst hik
  refine ⟨by omega, by rwa [Nat.add_comm], ?_⟩
  intro j hj1 hj2 hjsp
  have : (s.drop start).get? (j - start) = some spaceChar := by
    rw [List.get?_drop]
    have : start + (j - start) = j := by omega
    rw [this]
    exact hjsp
  exact hmin (j - start) (by omega) this

theorem indexOfFrom_first {s : List Char} {start i : Nat}
    (hsp : s.get? i = some spaceChar) (hge : start ≤ i)
    (hmin : ∀ j, start ≤ j → j < i → s.get? j ≠ some spaceChar) :
    indexOfFrom s start = some i := by
  cases hf : indexOfFrom s start with
  | none => exact absurd hsp (indexOfFrom_none.mp hf i hge)
  | some k =>
    obtain ⟨hk1, hk2, hk3⟩ := indexOfFrom_some hf
    rcases Nat.lt_trichotomy k i with hlt | heq | hgt
    · exact absurd hk2 (hmin k hk1 hlt)
    · rw [heq]
    · exact absurd hsp (hk3 i hge hgt)

theorem indexOfFrom_mono_none {s : List Char} {a b : Nat}
    (h : indexOfFrom s a = none) (hab : a ≤ b) : indexOfFrom s b = none := by
  rw [indexOfFrom_none] at h ⊢
  intro j hj
  exact h j (by omega)

theorem lastSpaceIdx_none {l : List Char} :
    lastSpaceIdx l = none ↔ spaceChar ∉ l := by
  induction l with
  | nil => simp [lastSpaceIdx]
  | cons c cs ih =>
    unfold lastSpaceIdx
    cases hl : lastSpaceIdx cs with
    | some i =>
      simp only []
      constructor
      · intro h; exact absurd h (by simp)
      · intro h
        have : spaceChar ∉ cs := fun hm => h (List.mem_cons_of_mem c hm)
        rw [← ih] at this
        rw [this] at hl
        exact absurd hl (by simp)
    | none =>
      by_cases hc : c = spaceChar
      · simp [hc, ih.mp hl]
      · simp [hc, Ne.symm hc, ih.mp hl]

theorem lastSpaceIdx_some {l : List Char} {i : Nat}
    (h : lastSpaceIdx l = some i) :
    l.get? i = some spaceChar ∧ ∀ j, i < j → l.get? j ≠ some spaceChar := by
  induction l generalizing i with
  | nil => simp [lastSpaceIdx] at h
  | cons c cs ih =>
    unfold lastSpaceIdx at h
    cases hl : lastSpaceIdx cs with
    | some k =>
      rw [hl] at h
      simp only [Option.some.injEq] at h
      subst h
      obtain ⟨hsp, hmax⟩ := ih hl
      refine ⟨by simpa using hsp, ?_⟩
      intro j hj
      match j with
      | 0 => omega
      | j + 1 =>
        have : k < j := by omega
        simpa using hmax j this
    | none =>
      rw [hl] at h
      have hno : spaceChar ∉ cs := lastSpaceIdx_none.mp hl
      by_cases hc : c = spaceChar
      · rw [if_pos hc] at h
        simp only [Option.some.injEq] at h
        subst h
        refine ⟨by simpa using hc, ?_⟩
        intro j hj
        match j with
        | 0 => omega
        | j + 1 =>
          intro hjs
          exact hno (List.get?_mem (by simpa using hjs))
      · rw [if_neg hc] at h
        exact absurd h (by simp)

theorem lastSpaceIdx_last {l : List Char} {i : Nat}
    (hsp : l.get? i = some spaceChar)
    (hmax : ∀ j, i < j → l.get? j ≠ some spaceChar) :
    lastSpaceIdx l = some i := by
  cases hl : lastSpaceIdx l with
  | none => exact absurd (List.get?_mem hsp) (lastSpaceIdx_none.mp hl)
  | some k =>
    obtain ⟨hk1, hk2⟩ := lastSpaceIdx_some hl
    rcases Nat.lt_trichotomy k i with hlt | heq | hgt
    · exact absurd hsp (hk2 i hlt)
    · rw [heq]
    · exact absurd hk1 (hmax k hgt)

theorem splitLoopFuel_exit {s : List Char} {index : Nat} (fuel : Nat)
    (h : s.length / 2 < index) : splitLoopFuel fuel s index = index := by
  cases fuel with
  | zero => rfl
  | succ fuel =>
    unfold splitLoopFuel
    cases hf : indexOfFrom s index with
    | none => rfl
    | some i => simp only []; rw [if_neg (by omega)]

theorem splitLoopFuel_spec (s : List Char) :
    ∀ fuel index, s.length + 1 - index ≤ fuel → index ≤ s.length / 2 →
      splitLoopFuel fuel s index =
        match indexOfFrom s index with
        | none => index
        | some _ =>
          match indexOfFrom s (s.length / 2) with
          | some q => q + 1
          | none => (lastSpaceIdx s).getD 0 + 1 := by
  intro fuel
  induction fuel with
  | zero =>
    intro index h1 h2
    exfalso
    have := Nat.div_le_self s.length 2
    omega
  | succ fuel ih =>
    intro index h1 h2
    cases hf : indexOfFrom s index with
    | none => simp [splitLoopFuel, hf]
    | some i =>
      obtain ⟨hge, hsp, hmin⟩ := indexOfFrom_some hf
      have hilen : i < s.length := by
        rcases List.get?_eq_some.mp hsp with ⟨hlt, _⟩
        exact hlt
      unfold splitLoopFuel
      rw [hf]
      simp only []
      rw [if_pos h2]
      by_cases hmid : s.length / 2 ≤ i
      · have hfirstmid : indexOfFrom s (s.length / 2) = some i := by
          refine indexOfFrom_first hsp hmid ?_
          intro j hj1 hj2
          exact hmin j (by omega) hj2
        rw [splitLoopFuel_exit fuel (by omega)]
        rw [hfirstmid]
      · push_neg at hmid
        have hrec := ih (i + 1) (by omega) (by omega)
        rw [hrec]
        cases hnext : indexOfFrom s (i + 1) with
        | some j => rfl
        | none =>
          have hmidnone : indexOfFrom s (s.length / 2) = none :=
            indexOfFrom_mono_none hnext (by omega)
          have hlast : lastSpaceIdx s = some i := by
            refine lastSpaceIdx_last hsp ?_
            intro j hj
            exact indexOfFrom_none.mp hnext j (by omega)
          rw [hmidnone, hlast]
          rfl

/-! ## Claim theorems -/

/-- C1 (counterexample): a payload in which every required field is
absent, fetched with HTTP status 200, does NOT make the populate step
fail wholesale — a (garbage, all-defaults) snapshot is published and
drawn, replacing the previous display state. -/
theorem updateData_missing_field_still_draws :
    emptyPayload.current_temperature_2m = none ∧
    (updateData none "Envigado, Colombia" 200 emptyPayload).2 = true ∧
    (updateData none "Envigado, Colombia" 200 emptyPayload).1.isSome = true :=
  ⟨rfl, by decide, by decide⟩

/-- C1 (amended): whether the refresh cycle publishes and draws a
snapshot depends only on the HTTP status code, never on which fields the
payload carries; on any non-200 status the previous display state is
retained and nothing is drawn, and on status 200 the snapshot built from
the payload — absent or mistyped fields silently defaulting to 0 — is
always published and drawn. -/
theorem updateData_http_gate (prev : Option OWforecast) (city : String)
    (httpCode : Int) (p q : Payload) :
    (updateData prev city httpCode p).2 = (updateData prev city httpCode q).2 ∧
    updateData prev city httpCode p =
      ((if httpCode = 200 then
          some (populateForecast { freshForecast with city_name := city } p)
        else prev),
       decide (httpCode = 200)) := by
  by_cases h : httpCode = 200 <;> simp [updateData, h]

/-- C2 (counterexample): on "Partly cloudy with a chance of rain"
(length 35, midpoint 17) `splitIndex` returns 18, which is beyond the
midpoint; the last space at or before the midpoint is index 13, and
`splitIndex` does not return it. -/
theorem splitIndex_example_crosses_midpoint :
    splitIndex forecastPhrase = 18 ∧
    ¬ splitIndex forecastPhrase ≤ forecastPhrase.length / 2 ∧
    forecastPhrase.get? 13 = some spaceChar ∧
    (∀ j : Nat, j < 18 → 13 < j → j ≤ 17 → forecastPhrase.get? j ≠ some spaceChar) ∧
    splitIndex forecastPhrase ≠ 13 :=
  ⟨by decide, by decide, by decide, by decide, by decide⟩

/-- C2 (amended): for every string, `splitIndex` returns the first space
at or after the midpoint `length / 2` when the string contains such a
space (a value that may exceed the midpoint), otherwise the last space of
the string, and `0` exactly for strings with no space at all — the
behaviour captured by `splitIndexSpec`. -/
theorem splitIndex_eq_spec (s : List Char) : splitIndex s = splitIndexSpec s := by
  have key := splitLoopFuel_spec s (s.length + 1) 0 (by omega) (Nat.zero_le _)
  unfold splitIndex splitLoop splitIndexSpec
  rw [key]
  cases hf : indexOfFrom s 0 with
  | none =>
    have hnos : spaceChar ∉ s := by
      intro hmem
      obtain ⟨n, hn⟩ := List.mem_iff_get?.mp hmem
      exact indexOfFrom_none.mp hf n (Nat.zero_le n) hn
    simp [hnos]
  | some i =>
    have hmem : spaceChar ∈ s := by
      obtain ⟨_, hsp, _⟩ := indexOfFrom_some hf
      exact List.get?_mem hsp
    rw [if_pos hmem]
    cases hq : indexOfFrom s (s.length / 2) with
    | some q => simp
    | none =>
      cases hl : lastSpaceIdx s with
      | none => exact absurd hmem (lastSpaceIdx_none.mp hl)
      | some L => simp

/-- C3 (code bug): because `forecast = new OW_forecast` reallocates the
object each cycle, line 302 saves the fresh object's empty pressure slot
instead of the previously observed pressure.  Starting from boot,
`lastPressure` stays 0 through the 1010-then-1015 cycles of the claim
and no arrow is drawn on the second cycle, it stays 0 after every
sequence of successful cycles, and no cycle entered with `lastPressure
= 0` ever draws an arrow — whereas the arrow rule itself, fed the
claimed previous value 1010 and new value 1015, would draw the rising
arrow. -/
theorem pressure_trend_never_fires :
    (pressureRefreshCycle 0 1010).1 = 0 ∧
    (pressureRefreshCycle (pressureRefreshCycle 0 1010).1 1015).2 = none ∧
    trendArrow 1010 1015 = some true ∧
    (∀ ps : List Int, runPressureCycles ps = 0) ∧
    (∀ p : Int, (pressureRefreshCycle 0 p).2 = none) := by
  have step : ∀ lp p : Int, (pressureRefreshCycle lp p).1 = lp := by
    intro lp p
    simp [pressureRefreshCycle, savePressure, newForecastPressure, freshForecast]
  refine ⟨by decide, by decide, by decide, ?_, ?_⟩
  · intro ps
    have gen : ∀ (l : List Int) (a : Int),
        l.foldl (fun lp p => (pressureRefreshCycle lp p).1) a = a := by
      intro l
      induction l with
      | nil => intro a; rfl
      | cons x xs ih =>
        intro a
        simp only [List.foldl_cons]
        rw [step a x]
        exact ih a
    exact gen ps 0
  · intro p
    simp [pressureRefreshCycle, savePressure, newForecastPressure,
      freshForecast, trendArrow]

/-- C4: the night offset of 1000 is added exactly when classifying
current conditions (`today = true`) with a code in 0–3 at a time outside
`[sunrise, sunset]`; with `today = false` the id is never adjusted, so
every forecast-day panel receives the offset-free daytime icon for every
code and every time. -/
theorem night_offset_current_only (id : Nat) (today : Bool)
    (timeNow sunriseT sunsetT : Nat) (f : OWforecast) (t d : Nat) :
    (nightAdjustedId id today timeNow sunriseT sunsetT = id + 1000 ↔
      (today = true ∧ id ≤ 3 ∧ (timeNow < sunriseT ∨ timeNow > sunsetT))) ∧
    getMeteoconIcon id false timeNow sunriseT sunsetT = meteoconTable id ∧
    forecastPanelIcon f t d = meteoconTable (f.id d) := by
  refine ⟨?_, ?_, ?_⟩
  · unfold nightAdjustedId
    split_ifs with h
    · exact iff_of_true rfl h
    · exact iff_of_false (by omega) h
  · simp [getMeteoconIcon, nightAdjustedId]
  · simp [forecastPanelIcon, getMeteoconIcon, nightAdjustedId]

set_option maxRecDepth 40000 in
/-- C5: on every integer bearing in `[0, 360)` the sector computed by
`drawCurrentWeather` equals the specification formula
`floor((bearing + 22.5) / 45) mod 8`, lies in the 8 sectors, and selects
one of the 8 direction names. -/
theorem windAngle_eq_spec_sector (b : Int) (h0 : 0 ≤ b) (h1 : b < 360) :
    windAngle b = specSector b ∧ 0 ≤ windAngle b ∧ windAngle b < 8 ∧
      windDirName b ∈ windDirs := by
  have key : ∀ n : Nat, n < 360 →
      windAngle (n : Int) = specSector (n : Int) ∧ 0 ≤ windAngle (n : Int) ∧
        windAngle (n : Int) < 8 ∧ windDirName (n : Int) ∈ windDirs := by decide
  have hb : b = ((b.toNat : Nat) : Int) := by omega
  rw [hb]
  exact key b.toNat (by omega)

/-- C5 witness: the seam bearing 338 (which the raw division maps to 8,
clamped to sector 0 = North, as `mod 8` does). -/
theorem windAngle_eq_spec_sector_witness :
    (0 ≤ (338 : Int)) ∧ (338 : Int) < 360 ∧
      (windAngle 338 = specSector 338 ∧ 0 ≤ windAngle 338 ∧ windAngle 338 < 8 ∧
        windDirName 338 ∈ windDirs) :=
  ⟨by decide, by decide, windAngle_eq_spec_sector 338 (by decide) (by decide)⟩

/-- C6: every weather code 0–99 maps to a non-empty icon name, and every
id outside all ranges of the table — whatever its size — maps to the
explicit `"unknown"` sentinel. -/
theorem meteoconTable_total (id : Nat) :
    (id < 100 → meteoconTable id ≠ "") ∧
    (¬ inAnyIconRange id → meteoconTable id = "unknown") := by
  constructor
  · intro h
    have key : ∀ j : Nat, j < 100 → meteoconTable j ≠ "" := by decide
    exact key id h
  · intro h
    unfold inAnyIconRange at h
    unfold meteoconTable
    rw [if_neg fun x => h (Or.inl x),
        if_neg fun x => h (Or.inr (Or.inl x)),
        if_neg fun x => h (Or.inr (Or.inr (Or.inl x))),
        if_neg fun x => h (Or.inr (Or.inr (Or.inr (Or.inl x)))),
        if_neg fun x => h (Or.inr (Or.inr (Or.inr (Or.inr (Or.inl x))))),
        if_neg fun x => h (Or.inr (Or.inr (Or.inr (Or.inr (Or.inr (Or.inl x)))))),
        if_neg fun x =>
          h (Or.inr (Or.inr (Or.inr (Or.inr (Or.inr (Or.inr (Or.inl x))))))),
        if_neg fun x =>
          h (Or.inr (Or.inr (Or.inr (Or.inr (Or.inr (Or.inr (Or.inr
            (Or.inl x)))))))),
        if_neg fun x =>
          h (Or.inr (Or.inr (Or.inr (Or.inr (Or.inr (Or.inr (Or.inr (Or.inr
            (Or.inl x))))))))),
        if_neg fun x =>
          h (Or.inr (Or.inr (Or.inr (Or.inr (Or.inr (Or.inr (Or.inr (Or.inr
            (Or.inr (Or.inl x)))))))))),
        if_neg fun x =>
          h (Or.inr (Or.inr (Or.inr (Or.inr (Or.inr (Or.inr (Or.inr (Or.inr
            (Or.inr (Or.inr x))))))))))]

/-- C6 witness: code 42 is inside 0–99, outside every range, and maps to
the non-empty `"unknown"` icon. -/
theorem meteoconTable_total_witness :
    ((42 : Nat) < 100 ∧ meteoconTable 42 ≠ "") ∧
      (¬ inAnyIconRange 42 ∧ meteoconTable 42 = "unknown") :=
  ⟨⟨by decide, (meteoconTable_total 42).1 (by decide)⟩,
   ⟨by decide, (meteoconTable_total 42).2 (by decide)⟩⟩

/-- C7: the condition-word table maps every code 0–99 to one of the four
words, and its grouping genuinely differs from the icon table's: codes
45 and 61 share the word `"Rain"` but get different icons (`"fog"` and
`"rain"`), so the two tables are not one unified mapping. -/
theorem legend_and_icon_tables_differ :
    (∀ c : Nat, c < 100 →
      legendWord (c : Int) ∈ ["Clear", "Cloudy", "Rain", "Storm"]) ∧
    legendWord 45 = legendWord 61 ∧ meteoconTable 45 ≠ meteoconTable 61 :=
  ⟨by decide, by decide, by decide⟩

/-- C7 witness: code 45 is in range and maps to one of the four words. -/
theorem legend_and_icon_tables_differ_witness :
    (45 : Nat) < 100 ∧
      legendWord ((45 : Nat) : Int) ∈ ["Clear", "Cloudy", "Rain", "Storm"] :=
  ⟨by decide, legend_and_icon_tables_differ.1 45 (by decide)⟩

/-- C8 (counterexample): a 200 response whose country field is present
but EMPTY still overwrites the cache (the code only rejects the literal
`"null"`), contradicting “overwritten only on … a non-empty country
name”. -/
theorem getLocationName_empty_country_updates :
    (GeoResponse.country ⟨200, "Paris", "Lyon", ""⟩ = "") ∧
    getLocationName "Envigado, Colombia" ⟨200, "Paris", "Lyon", ""⟩ = "Paris, " ∧
    getLocationName "Envigado, Colombia" ⟨200, "Paris", "Lyon", ""⟩ ≠
      "Envigado, Colombia" :=
  ⟨rfl, by decide, by decide⟩

/-- C8 (amended): the resolver never fails observably — on every non-200
outcome, and across any sequence of such failures, the cached value is
returned unchanged — and the cache is overwritten exactly when the
status is 200, the resolved city (city, falling back to locality) is
neither `"null"` nor empty, and the country is not the literal `"null"`
(an empty country string is accepted). -/
theorem getLocationName_cache_discipline (cache : String) (r : GeoResponse)
    (rs : List GeoResponse) (hfail : ∀ x ∈ rs, x.httpCode ≠ 200) :
    resolveMany cache rs = cache ∧
    getLocationName cache r =
      (if r.httpCode = 200 ∧ resolvedCity r ≠ "null" ∧ r.country ≠ "null" ∧
          resolvedCity r ≠ "" then
        resolvedCity r ++ ", " ++ r.country
      else cache) := by
  constructor
  · have gen : ∀ (l : List GeoResponse) (a : String),
        (∀ x ∈ l, x.httpCode ≠ 200) → resolveMany a l = a := by
      intro l
      induction l with
      | nil => intro a _; rfl
      | cons x xs ih =>
        intro a hall
        unfold resolveMany at ih ⊢
        simp only [List.foldl_cons]
        have hx : getLocationName a x = a := by
          have : x.httpCode ≠ 200 := hall x (by simp)
          simp [getLocationName, this]
        rw [hx]
        exact ih a fun y hy => hall y (by simp [hy])
    exact gen rs cache hfail
  · unfold getLocationName
    split_ifs with h1 h2 h3 <;> first | rfl | tauto

/-- C8 witness: two consecutive failed lookups leave the cache intact,
and a successful locality-fallback lookup follows the overwrite rule. -/
theorem getLocationName_cache_discipline_witness :
    (∀ x ∈ geoFailSamples, x.httpCode ≠ 200) ∧
    (resolveMany "Envigado, Colombia" geoFailSamples = "Envigado, Colombia" ∧
      getLocationName "Envigado, Colombia" geoOkSample =
        (if geoOkSample.httpCode = 200 ∧ resolvedCity geoOkSample ≠ "null" ∧
            geoOkSample.country ≠ "null" ∧ resolvedCity geoOkSample ≠ "" then
          resolvedCity geoOkSample ++ ", " ++ geoOkSample.country
        else "Envigado, Colombia")) :=
  ⟨by decide,
   getLocationName_cache_discipline "Envigado, Colombia" geoOkSample
     geoFailSamples (by decide)⟩

/-- C9 (counterexample): the panel label is computed from the raw stored
sunrise timestamp, not from its local-time conversion: for the day-1
sunrise 262800 (01:00 UTC, Sunday 4 Jan 1970) in a UTC-5 zone the code
draws "SUN" while the local-time weekday is Saturday ("SAT"). -/
theorem forecastDayName_ignores_timezone :
    forecastDayName (populateForecast freshForecast utcMorningPayload) 8 = "SUN" ∧
    localForecastDayName (-18000) 262800 = "SAT" ∧
    forecastDayName (populateForecast freshForecast utcMorningPayload) 8 ≠
      localForecastDayName (-18000) 262800 :=
  ⟨by decide, by decide, by decide⟩

/-- C9 (amended): each forecast panel's weekday label is derived from
that day's stored sunrise timestamp taken as-is (no local-time
conversion), and this holds for each of the four days regardless of the
strided storage slots 8, 16, 24, 32 the days occupy. -/
theorem forecastDayName_from_stored_sunrise (p : Payload) (i : Nat)
    (h1 : 1 ≤ i) (h2 : i ≤ 4) :
    forecastDayName (populateForecast freshForecast p) (i * 8) =
      upStr (dayShortStr (weekday ((p.daily_sunrise i).getD 0))) := by
  have hi : i = 1 ∨ i = 2 ∨ i = 3 ∨ i = 4 := by omega
  rcases hi with h | h | h | h <;> subst h <;>
    simp [forecastDayName, populateForecast, stridedWrite]

/-- C9 witness: day 2, stored in slot 16. -/
theorem forecastDayName_from_stored_sunrise_witness :
    (1 ≤ 2 ∧ 2 ≤ 4) ∧
    forecastDayName (populateForecast freshForecast utcMorningPayload) (2 * 8) =
      upStr (dayShortStr (weekday ((utcMorningPayload.daily_sunrise 2).getD 0))) :=
  ⟨⟨by decide, by decide⟩,
   forecastDayName_from_stored_sunrise utcMorningPayload 2 (by decide) (by decide)⟩

/-- C10: for every integer bearing — negative or 360 and beyond included
— the computed sector is clamped into `[0, 7]`, so indexing the
8-element direction-name array never goes out of bounds. -/
theorem windAngle_always_in_range (b : Int) :
    0 ≤ windAngle b ∧ windAngle b ≤ 7 ∧ (windAngle b).toNat < windDirs.length := by
  unfold windAngle
  split_ifs with h
  · exact ⟨le_refl 0, by omega, by decide⟩
  · push_neg at h
    obtain ⟨ha, hb⟩ := h
    refine ⟨by omega, by omega, ?_⟩
    show (windAngleRaw b).toNat < 8
    omega

end WeatherStation
